import Mathlib

/-!
Verification of the matrix-gen-pro generation job orchestration engine.

Each definition below is a shallow embedding of a function of the
repository, translated from the TypeScript/JavaScript source:

- the job queue and dispatch loop of src/components/Sora2RolePanel.tsx
  (processNextJob, processJob, handleStartBatch, handleSingleGenerate,
  handleClearFinished, handleRename);
- the plugin registries of src/services/pluginSystem.ts and of the
  external-plugin variant of the same module;
- the external plugin loader of src/services/pluginLoader.ts;
- the grsai provider adapter of src-tauri/plugins/grsai-provider.js
  (parseTaskResponse, parseVideoUrl);
- the polling drivers of src/services/GeeknowPlugin.ts and of the
  external-plugin session driver (aiPluginToApiPlugin);
- the actor registration pipeline of Sora2RolePanel.tsx together with
  the FFmpegService used by it.

JavaScript data is modelled with Option for possibly-missing fields, and
JavaScript truthiness of a string field is made explicit (missing or
empty strings are falsy).
-/

/-- Truthiness of an optional JS string value: undefined and the empty
string are falsy, every other string is truthy. -/
def jsTruthyStr : Option String → Bool
  | none => false
  | some s => s ≠ ""

/-- JobStatus enum of src/types.ts. -/
inductive JobStatus
  | pending
  | processing
  | completed
  | failed
  deriving DecidableEq, Repr

/-- MediaType enum of src/types.ts. -/
inductive MediaType
  | image
  | video
  | text
  deriving DecidableEq, Repr

/-- Job record of src/types.ts.  Optional TS fields become Option. -/
structure Job where
  id : String
  prompt : String
  status : JobStatus
  resultUrl : Option String := none
  fileName : Option String := none
  error : Option String := none
  createdAt : Nat
  duration : Option Nat := none
  progress : Option Int := none
  mediaType : MediaType
  deriving DecidableEq, Repr

/-- Number of jobs whose status is PROCESSING:
jobs.filter(j => j.status === JobStatus.PROCESSING).length. -/
def processingCount (js : List Job) : Nat :=
  List.countP (fun j => decide (j.status = JobStatus.processing)) js

/-- The pending sublist: jobs.filter(j => j.status === JobStatus.PENDING). -/
def pendingJobs (js : List Job) : List Job :=
  js.filter (fun j => decide (j.status = JobStatus.pending))

/-- The claiming update of processNextJob:
setJobs(prev => prev.map(j => j.id === jobToProcess.id ?
\x7b ...j, status: JobStatus.PROCESSING, progress: 0 \x7d : j)). -/
def claimJob (js : List Job) (jid : String) : List Job :=
  js.map fun j =>
    if j.id = jid then { j with status := JobStatus.processing, progress := some 0 } else j

/-- One tick of the dispatch loop, processNextJob of Sora2RolePanel.tsx:
if there is no PENDING job, or processingCount >= concurrency, the tick
is a no-op on the job list; otherwise the first PENDING job of the list
is marked PROCESSING with progress 0.  (The processingRef guard of the
source is read but never set, so it never blocks a tick.) -/
def processNextJob (concurrency : Nat) (js : List Job) : List Job :=
  match pendingJobs js with
  | [] => js
  | jobToProcess :: _ =>
      if concurrency ≤ processingCount js then js
      else claimJob js jobToProcess.id

/-- Success update of processJob:
prev.map(j => j.id === job.id ?
\x7b ...j, status: COMPLETED, resultUrl, fileName, progress: 100 \x7d : j). -/
def completeJob (js : List Job) (jid url fn : String) : List Job :=
  js.map fun j =>
    if j.id = jid then
      { j with status := JobStatus.completed, resultUrl := some url,
               fileName := some fn, progress := some 100 }
    else j

/-- Failure update of processJob (the catch branch):
prev.map(j => j.id === job.id ?
\x7b ...j, status: FAILED, error: errorMessage, progress: 0 \x7d : j). -/
def failJob (js : List Job) (jid msg : String) : List Job :=
  js.map fun j =>
    if j.id = jid then
      { j with status := JobStatus.failed, error := some msg, progress := some 0 }
    else j

/-- Progress callback of processJob:
prev.map(j => j.id === job.id ? \x7b ...j, progress: percent \x7d : j). -/
def updateProgress (js : List Job) (jid : String) (percent : Int) : List Job :=
  js.map fun j => if j.id = jid then { j with progress := some percent } else j

/-- handleRename: prev.map(j => j.id === id ? \x7b ...j, fileName: newName \x7d : j). -/
def renameJob (js : List Job) (jid newName : String) : List Job :=
  js.map fun j => if j.id = jid then { j with fileName := some newName } else j

/-- handleClearFinished: drop COMPLETED and FAILED jobs of the current
media type. -/
def clearFinished (mt : MediaType) (js : List Job) : List Job :=
  js.filter fun j =>
    decide ¬(j.mediaType = mt ∧ (j.status = JobStatus.completed ∨ j.status = JobStatus.failed))

/-- handleSingleGenerate appends the new job at the FRONT of the list:
setJobs(prev => [newJob, ...prev]). -/
def handleSingleGenerate (js : List Job) (newJob : Job) : List Job :=
  newJob :: js

/-- handleStartBatch appends the batch at the FRONT of the list:
setJobs(prev => [...newJobs, ...prev]); inside newJobs the batch keeps
its creation order. -/
def handleStartBatch (js : List Job) (newJobs : List Job) : List Job :=
  newJobs ++ js

/-- Small scratch checks of the embedding. -/
example :
    processNextJob 1
      [{ id := "a", prompt := "p", status := JobStatus.pending, createdAt := 3,
         mediaType := MediaType.video }]
      = [{ id := "a", prompt := "p", status := JobStatus.processing, createdAt := 3,
           progress := some 0, mediaType := MediaType.video }] := by decide

example :
    processNextJob 0
      [{ id := "a", prompt := "p", status := JobStatus.pending, createdAt := 3,
         mediaType := MediaType.video }]
      = [{ id := "a", prompt := "p", status := JobStatus.pending, createdAt := 3,
           mediaType := MediaType.video }] := by decide

/-! ## Scheduler transition system

One step is either a tick of the dispatch loop, one of the asynchronous
updates a session driver performs on its job, a batch/single submission
(which PREPENDS pending jobs), a clear of finished jobs, or a rename.
The submission constructor requires the fresh ids to keep the id column
duplicate-free, which mirrors the id generator of the source
(Date.now() plus a random suffix). -/

/-- Ids of the job list are pairwise distinct. -/
def idsNodup (js : List Job) : Prop :=
  (js.map Job.id).Nodup

/-- One event on the job collection, as fired by the source handlers. -/
inductive SchedStep (c : Nat) : List Job → List Job → Prop
  | tick (js : List Job) :
      SchedStep c js (processNextJob c js)
  | complete (js : List Job) (jid url fn : String) :
      SchedStep c js (completeJob js jid url fn)
  | fail (js : List Job) (jid msg : String) :
      SchedStep c js (failJob js jid msg)
  | progress (js : List Job) (jid : String) (percent : Int) :
      SchedStep c js (updateProgress js jid percent)
  | submit (js newJobs : List Job)
      (hpending : ∀ j ∈ newJobs, j.status = JobStatus.pending)
      (hfresh : idsNodup (newJobs ++ js)) :
      SchedStep c js (handleStartBatch js newJobs)
  | clear (js : List Job) (mt : MediaType) :
      SchedStep c js (clearFinished mt js)
  | rename (js : List Job) (jid newName : String) :
      SchedStep c js (renameJob js jid newName)

/-- Reflexive-transitive closure of scheduler events. -/
inductive SchedReachable (c : Nat) : List Job → List Job → Prop
  | refl (js : List Job) : SchedReachable c js js
  | tail {a b d : List Job} :
      SchedReachable c a b → SchedStep c b d → SchedReachable c a d

/-- Counting with p after a pointwise update guarded by q is bounded by
the old count plus the number of elements satisfying the guard. -/
theorem countP_map_ite_le {α : Type} (p : α → Bool) (q : α → Prop) [DecidablePred q]
    (f : α → α) (l : List α) :
    List.countP p (l.map fun a => if q a then f a else a)
      ≤ List.countP p l + List.countP (fun a => decide (q a)) l := by
  induction l with
  | nil => simp
  | cons a t ih =>
      simp only [List.map_cons, List.countP_cons]
      by_cases hq : q a
      · simp only [if_pos hq]
        have h1 : (if p (f a) then 1 else 0) ≤ 1 := by split <;> omega
        have h2 : (if (decide (q a)) then 1 else 0) = 1 := by simp [hq]
        omega
      · simp only [if_neg hq]
        have h2 : (if (decide (q a)) then 1 else 0) = 0 := by simp [hq]
        omega

/-- A pointwise update that never turns a non-p element into a p element
cannot increase the p-count. -/
theorem countP_map_le_of_imp {α : Type} (p : α → Bool) (f : α → α)
    (h : ∀ a, p (f a) = true → p a = true) (l : List α) :
    List.countP p (l.map f) ≤ List.countP p l := by
  induction l with
  | nil => simp
  | cons a t ih =>
      simp only [List.map_cons, List.countP_cons]
      have h1 : (if p (f a) then 1 else 0) ≤ (if p a then 1 else 0) := by
        by_cases hf : p (f a)
        · simp [hf, h a hf]
        · rw [if_neg hf]
          exact Nat.zero_le _
      exact Nat.add_le_add ih h1

/-- With duplicate-free ids, at most one job carries a given id. -/
theorem countP_id_le_one (js : List Job) (h : idsNodup js) (jid : String) :
    List.countP (fun j => decide (j.id = jid)) js ≤ 1 := by
  induction js with
  | nil => simp
  | cons j t ih =>
      simp only [idsNodup, List.map_cons, List.nodup_cons] at h
      obtain ⟨hnotin, hnodup⟩ := h
      simp only [List.countP_cons]
      by_cases hj : j.id = jid
      · have hzero : List.countP (fun x => decide (x.id = jid)) t = 0 := by
          rw [List.countP_eq_zero]
          intro x hx
          simp only [decide_eq_true_eq]
          intro hxid
          exact hnotin (hj ▸ hxid ▸ List.mem_map_of_mem Job.id hx)
        simp [hj, hzero]
      · have h1 : (if (decide (j.id = jid)) then 1 else 0) = 0 := by simp [hj]
        have := ih hnodup
        omega

/-- A per-id update keeps the id column, hence its distinctness. -/
theorem idsNodup_update (js : List Job) (upd : Job → Job)
    (h : ∀ j, (upd j).id = j.id) (hn : idsNodup js) :
    idsNodup (js.map upd) := by
  unfold idsNodup at *
  rw [List.map_map]
  have heq : (Job.id ∘ upd) = Job.id := funext h
  rw [heq]; exact hn

/-- Filtering preserves distinctness of the id column. -/
theorem idsNodup_filter (js : List Job) (p : Job → Bool) (hn : idsNodup js) :
    idsNodup (js.filter p) := by
  unfold idsNodup at *
  exact hn.sublist (List.Sublist.map Job.id (List.filter_sublist js))

/-- Filtering cannot increase a count. -/
theorem countP_filter_le {α : Type} (p q : α → Bool) (l : List α) :
    List.countP p (l.filter q) ≤ List.countP p l := by
  induction l with
  | nil => simp
  | cons a t ih =>
      rw [List.filter_cons]
      by_cases hq : q a
      · rw [if_pos hq, List.countP_cons, List.countP_cons]
        exact Nat.add_le_add ih (le_refl _)
      · rw [if_neg hq, List.countP_cons]
        exact le_trans ih (Nat.le_add_right _ _)


/-- The claiming update, like every per-id update of the source, keeps
each job's id. -/
theorem claim_update_keeps_id (jid : String) (j : Job) :
    (if j.id = jid then { j with status := JobStatus.processing, progress := some 0 } else j).id
      = j.id := by
  by_cases h : j.id = jid <;> simp [h]

/-- A tick with no pending job leaves the job list unchanged. -/
theorem processNextJob_of_pending_nil (c : Nat) (js : List Job)
    (h : pendingJobs js = []) :
    processNextJob c js = js := by
  unfold processNextJob
  rw [h]

/-- A tick with no concurrency headroom leaves the job list unchanged. -/
theorem processNextJob_no_headroom (c : Nat) (js : List Job)
    (h : c ≤ processingCount js) :
    processNextJob c js = js := by
  unfold processNextJob
  cases hp : pendingJobs js with
  | nil => rfl
  | cons j rest =>
      show (if c ≤ processingCount js then js else claimJob js j.id) = js
      rw [if_pos h]

/-- With headroom and a pending job, the tick claims exactly the FIRST
pending job of the stored list. -/
theorem processNextJob_claims_first (c : Nat) (js : List Job) (j : Job) (rest : List Job)
    (hp : pendingJobs js = j :: rest) (hcap : ¬ c ≤ processingCount js) :
    processNextJob c js = claimJob js j.id := by
  unfold processNextJob
  rw [hp]
  show (if c ≤ processingCount js then js else claimJob js j.id) = claimJob js j.id
  rw [if_neg hcap]

/-- A tick raises the PROCESSING count by at most one (at most one job
is claimed per tick), given distinct ids. -/
theorem processNextJob_claims_le_one (c : Nat) (js : List Job) (h : idsNodup js) :
    processingCount (processNextJob c js) ≤ processingCount js + 1 := by
  cases hp : pendingJobs js with
  | nil => rw [processNextJob_of_pending_nil c js hp]; omega
  | cons j rest =>
      by_cases hcap : c ≤ processingCount js
      · rw [processNextJob_no_headroom c js hcap]; omega
      · rw [processNextJob_claims_first c js j rest hp hcap]
        have h1 := countP_map_ite_le
          (fun x => decide (x.status = JobStatus.processing)) (fun x => x.id = j.id)
          (fun x => { x with status := JobStatus.processing, progress := some 0 }) js
        have h2 := countP_id_le_one js h j.id
        unfold claimJob processingCount
        omega

/-- Every scheduler event preserves distinct ids and the concurrency
bound. -/
theorem schedStep_preserves_inv {c : Nat} {js js' : List Job}
    (hstep : SchedStep c js js') (h1 : idsNodup js) (h2 : processingCount js ≤ c) :
    idsNodup js' ∧ processingCount js' ≤ c := by
  cases hstep with
  | tick =>
      constructor
      · cases hp : pendingJobs js with
        | nil => rw [processNextJob_of_pending_nil c js hp]; exact h1
        | cons j rest =>
            by_cases hcap : c ≤ processingCount js
            · rw [processNextJob_no_headroom c js hcap]; exact h1
            · rw [processNextJob_claims_first c js j rest hp hcap]
              exact idsNodup_update js _ (claim_update_keeps_id j.id) h1
      · cases hp : pendingJobs js with
        | nil => rw [processNextJob_of_pending_nil c js hp]; exact h2
        | cons j rest =>
            by_cases hcap : c ≤ processingCount js
            · rw [processNextJob_no_headroom c js hcap]; exact h2
            · rw [processNextJob_claims_first c js j rest hp hcap]
              have h3 := countP_map_ite_le
                (fun x => decide (x.status = JobStatus.processing)) (fun x => x.id = j.id)
                (fun x => { x with status := JobStatus.processing, progress := some 0 }) js
              have h4 := countP_id_le_one js h1 j.id
              unfold claimJob processingCount
              unfold processingCount at hcap
              omega
  | complete jid url fn =>
      constructor
      · exact idsNodup_update js _ (fun j => by by_cases h : j.id = jid <;> simp [h]) h1
      · refine le_trans (countP_map_le_of_imp _ _ (fun j hj => ?_) js) h2
        by_cases h : j.id = jid <;> simp [h] at hj ⊢
        exact hj
  | fail jid msg =>
      constructor
      · exact idsNodup_update js _ (fun j => by by_cases h : j.id = jid <;> simp [h]) h1
      · refine le_trans (countP_map_le_of_imp _ _ (fun j hj => ?_) js) h2
        by_cases h : j.id = jid <;> simp [h] at hj ⊢
        exact hj
  | progress jid percent =>
      constructor
      · exact idsNodup_update js _ (fun j => by by_cases h : j.id = jid <;> simp [h]) h1
      · refine le_trans (countP_map_le_of_imp _ _ (fun j hj => ?_) js) h2
        by_cases h : j.id = jid <;> simp [h] at hj ⊢ <;> exact hj
  | rename jid newName =>
      constructor
      · exact idsNodup_update js _ (fun j => by by_cases h : j.id = jid <;> simp [h]) h1
      · refine le_trans (countP_map_le_of_imp _ _ (fun j hj => ?_) js) h2
        by_cases h : j.id = jid <;> simp [h] at hj ⊢ <;> exact hj
  | submit newJobs hpending hfresh =>
      constructor
      · exact hfresh
      · unfold handleStartBatch processingCount
        rw [List.countP_append]
        have hz : List.countP (fun j => decide (j.status = JobStatus.processing)) newJobs = 0 := by
          rw [List.countP_eq_zero]
          intro j hj
          simp [hpending j hj]
        unfold processingCount at h2
        omega
  | clear mt =>
      exact ⟨idsNodup_filter js _ h1, le_trans (countP_filter_le _ _ js) h2⟩

/-- The invariant holds along every trace from an invariant-respecting
initial state. -/
theorem schedReachable_inv {c : Nat} {init js : List Job}
    (h : SchedReachable c init js)
    (hinit1 : idsNodup init) (hinit2 : processingCount init ≤ c) :
    idsNodup js ∧ processingCount js ≤ c := by
  induction h with
  | refl => exact ⟨hinit1, hinit2⟩
  | tail hr hs ih => exact schedStep_preserves_inv hs ih.1 ih.2

/-- C1: for every job-collection state reachable from the empty
collection and every concurrency limit c in 1..20, the number of
PROCESSING jobs is at most c at every tick boundary; a tick claims at
most one job, claims only when the PROCESSING count is strictly below c,
and is a no-op on the collection when there is no headroom. -/
theorem scheduler_concurrency_bound (c : Nat) (hc1 : 1 ≤ c) (hc2 : c ≤ 20)
    (js : List Job) (h : SchedReachable c [] js) :
    processingCount js ≤ c ∧
    processingCount (processNextJob c js) ≤ c ∧
    processingCount (processNextJob c js) ≤ processingCount js + 1 ∧
    (c ≤ processingCount js → processNextJob c js = js) := by
  have hinv := schedReachable_inv h (by simp [idsNodup]) (by simp [processingCount])
  exact ⟨hinv.2, (schedStep_preserves_inv (SchedStep.tick js) hinv.1 hinv.2).2,
         processNextJob_claims_le_one c js hinv.1,
         fun hge => processNextJob_no_headroom c js hge⟩

/-- A concrete pending job used to exercise the scheduler bound. -/
def jobW : Job :=
  { id := "w1", prompt := "a red fox", status := JobStatus.pending, createdAt := 10,
    mediaType := MediaType.video }

/-- Witness for the concurrency bound: submit one job to the empty
collection, tick once, and the bound holds at limit 1. -/
theorem scheduler_concurrency_bound_witness :
    processingCount (processNextJob 1 [jobW]) ≤ 1 := by
  have hreach : SchedReachable 1 [] (processNextJob 1 [jobW]) := by
    refine SchedReachable.tail (SchedReachable.tail (SchedReachable.refl []) ?_)
      (SchedStep.tick [jobW])
    exact SchedStep.submit [] [jobW] (by decide) (by unfold idsNodup; decide)
  exact ((scheduler_concurrency_bound 1 (le_refl 1) (by omega)
    (processNextJob 1 [jobW]) hreach).2).1

/-- A pending video job created at time 100. -/
def jobEarly : Job :=
  { id := "early", prompt := "first prompt", status := JobStatus.pending, createdAt := 100,
    mediaType := MediaType.video }

/-- A pending video job created later, at time 200. -/
def jobLate : Job :=
  { id := "late", prompt := "second prompt", status := JobStatus.pending, createdAt := 200,
    mediaType := MediaType.video }

/-- C4 counterexample: submissions PREPEND, so after adding jobEarly and
then jobLate the stored list is [jobLate, jobEarly]; a tick claims
jobLate even though jobEarly was created earlier and is still pending.
The earliest-created pending job is NOT claimed first. -/
theorem dispatch_claims_newer_job_first :
    handleSingleGenerate (handleSingleGenerate [] jobEarly) jobLate = [jobLate, jobEarly] ∧
    jobEarly.createdAt < jobLate.createdAt ∧
    jobEarly.status = JobStatus.pending ∧
    processNextJob 20 [jobLate, jobEarly]
      = [{ jobLate with status := JobStatus.processing, progress := some 0 }, jobEarly] := by
  decide

/-- C4 amended: the tick claims the first PENDING job in STORED list
order; since submissions prepend, a newly submitted all-pending batch is
claimed starting from its own first element, ahead of every older
pending job (within one batch, creation order is kept). -/
theorem dispatch_claims_head_of_newest_batch (c : Nat) (js : List Job)
    (j0 : Job) (tl : List Job)
    (hpend : ∀ j ∈ j0 :: tl, j.status = JobStatus.pending)
    (hcap : ¬ c ≤ processingCount js) :
    processNextJob c (handleStartBatch js (j0 :: tl))
      = claimJob (handleStartBatch js (j0 :: tl)) j0.id := by
  have hcount : processingCount (handleStartBatch js (j0 :: tl)) = processingCount js := by
    unfold handleStartBatch processingCount
    rw [List.countP_append]
    have hz : List.countP (fun j => decide (j.status = JobStatus.processing)) (j0 :: tl) = 0 := by
      rw [List.countP_eq_zero]
      intro j hj
      simp [hpend j hj]
    omega
  have h0 : pendingJobs (handleStartBatch js (j0 :: tl))
      = j0 :: (pendingJobs tl ++ pendingJobs js) := by
    unfold handleStartBatch pendingJobs
    rw [List.filter_append, List.filter_cons,
        if_pos (by simp [hpend j0 (List.mem_cons_self j0 tl)])]
    rfl
  exact processNextJob_claims_first c _ j0 (pendingJobs tl ++ pendingJobs js) h0
    (by rw [hcount]; exact hcap)

/-- Witness: a one-job batch submitted onto an older pending job is
claimed first. -/
theorem dispatch_claims_head_of_newest_batch_witness :
    processNextJob 2 (handleStartBatch [jobEarly] [jobLate])
      = claimJob (handleStartBatch [jobEarly] [jobLate]) jobLate.id :=
  dispatch_claims_head_of_newest_batch 2 [jobEarly] jobLate [] (by decide) (by decide)

/-- A job mid-run: PROCESSING with progress 42. -/
def jobRunning : Job :=
  { id := "r1", prompt := "animate a cat", status := JobStatus.processing, createdAt := 50,
    progress := some 42, mediaType := MediaType.video }

/-- The record the failure branch produces from jobRunning. -/
def jobRunningAfterFail (msg : String) : Job :=
  { jobRunning with
    status := JobStatus.failed,
    error := some msg,
    progress := some 0 }

/-- C5 counterexample: failing a job whose progress was 42 RESETS its
progress to 0 (the catch branch of processJob writes progress: 0), so
progress is not left at its last PROCESSING value. -/
theorem failed_job_progress_reset_to_zero :
    jobRunning.progress = some 42 ∧
    failJob [jobRunning] "r1" "Unknown API Error"
      = [jobRunningAfterFail "Unknown API Error"] ∧
    (jobRunningAfterFail "Unknown API Error").progress = some 0 := by
  decide

/-- C5 amended: on the failure transition the job receives the error
message and its progress is RESET TO 0, while id, prompt, mediaType,
createdAt and resultUrl are unchanged (so resultUrl stays unset when it
was unset), and every job with a different id is untouched. -/
theorem failJob_frame_effect (js : List Job) (jid msg : String) (jj : Job)
    (hmem : jj ∈ failJob js jid msg) :
    ∃ j ∈ js, jj.id = j.id ∧ jj.prompt = j.prompt ∧ jj.mediaType = j.mediaType ∧
      jj.createdAt = j.createdAt ∧ jj.resultUrl = j.resultUrl ∧
      (j.id = jid → jj.status = JobStatus.failed ∧ jj.error = some msg ∧
        jj.progress = some 0) ∧
      (j.id ≠ jid → jj = j) := by
  unfold failJob at hmem
  rcases List.mem_map.mp hmem with ⟨j, hj, rfl⟩
  refine ⟨j, hj, ?_⟩
  by_cases h : j.id = jid <;> simp [h]

/-- Witness for the failure frame effect at a concrete job. -/
theorem failJob_frame_effect_witness :
    ∃ j ∈ [jobRunning],
      (jobRunningAfterFail "boom").id = j.id ∧
      (jobRunningAfterFail "boom").prompt = j.prompt ∧
      (jobRunningAfterFail "boom").mediaType = j.mediaType ∧
      (jobRunningAfterFail "boom").createdAt = j.createdAt ∧
      (jobRunningAfterFail "boom").resultUrl = j.resultUrl ∧
      (j.id = "r1" → (jobRunningAfterFail "boom").status = JobStatus.failed ∧
        (jobRunningAfterFail "boom").error = some "boom" ∧
        (jobRunningAfterFail "boom").progress = some 0) ∧
      (j.id ≠ "r1" → jobRunningAfterFail "boom" = j) :=
  failJob_frame_effect [jobRunning] "r1" "boom" _ (by decide)

/-! ## Grsai provider adapter (src-tauri/plugins/grsai-provider.js)

Raw JSON payloads are modelled with Option fields: none is a missing
(undefined) field.  The status vocabulary of the provider is plain
strings, exactly as in the source. -/

/-- JS expression s || dflt on optional strings: missing and empty
strings fall back to the default. -/
def jsStrOr (s : Option String) (dflt : String) : String :=
  if jsTruthyStr s then s.getD dflt else dflt

/-- data field of a grsai poll response; results models the array of
records whose url fields the source reads (results[0].url). -/
structure GrsaiTaskData where
  status : Option String := none
  url : Option String := none
  results : Option (List (Option String)) := none
  deriving DecidableEq, Repr

/-- A raw grsai status-poll response; code may be missing. -/
structure GrsaiPollResponse where
  code : Option Int := none
  data : Option GrsaiTaskData := none
  deriving DecidableEq, Repr

/-- Return value of parseVideoUrl: a url and a status STRING (the source
returns strings, not an enum). -/
structure VideoUrlInfo where
  url : Option String
  status : String
  deriving DecidableEq, Repr

/-- parseVideoUrl of grsai-provider.js, branch for branch: code -22 maps
to processing; any other code than 0 (including a missing code) maps to
failed; status succeeded extracts a url (taskData.url when a truthy
string, else results[0].url) and yields completed when one is found and
failed otherwise; status failed maps to failed; every remaining case
returns status || processing, which passes a truthy unrecognized status
string through verbatim. -/
def parseVideoUrl (response : GrsaiPollResponse) : VideoUrlInfo :=
  if response.code = some (-22) then { url := none, status := "processing" }
  else if response.code ≠ some 0 then { url := none, status := "failed" }
  else
    match response.data with
    | none => { url := none, status := "processing" }
    | some taskData =>
        if taskData.status = some "succeeded" then
          let finalUrl : Option String :=
            if jsTruthyStr taskData.url then taskData.url
            else
              match taskData.results with
              | some (first :: _) => first
              | _ => none
          if jsTruthyStr finalUrl then { url := finalUrl, status := "completed" }
          else { url := none, status := "failed" }
        else if taskData.status = some "failed" then { url := none, status := "failed" }
        else
          match taskData.status with
          | none => { url := none, status := "processing" }
          | some s => if s = "" then { url := none, status := "processing" }
                      else { url := none, status := s }

/-- data field of a grsai submit response. -/
structure GrsaiSubmitData where
  id : Option String := none
  deriving DecidableEq, Repr

/-- A raw grsai submit response. -/
structure GrsaiSubmitResponse where
  code : Option Int := none
  msg : Option String := none
  data : Option GrsaiSubmitData := none
  deriving DecidableEq, Repr

/-- Return value of parseTaskResponse. -/
structure TaskInfo where
  taskId : Option String
  status : String
  deriving DecidableEq, Repr

/-- parseTaskResponse of grsai-provider.js: a code other than 0 THROWS
(modelled as Except.error with the thrown message); a missing or empty
id yields taskId null with status failed; otherwise the id with status
processing. -/
def parseTaskResponse (response : GrsaiSubmitResponse) : Except String TaskInfo :=
  if response.code ≠ some 0 then
    Except.error ("任务提交失败: " ++ jsStrOr response.msg "未知错误")
  else
    let taskId := response.data.bind GrsaiSubmitData.id
    if jsTruthyStr taskId then Except.ok { taskId := taskId, status := "processing" }
    else Except.ok { taskId := none, status := "failed" }

example : parseVideoUrl { code := some (-22) } = { url := none, status := "processing" } := by
  decide

example :
    parseVideoUrl { code := some 0, data := some { status := some "succeeded",
                                                   url := some "https://x/v.mp4" } }
      = { url := some "https://x/v.mp4", status := "completed" } := by decide

/-- C2 counterexample: with code 0 and the unrecognized provider status
"queued", parseVideoUrl returns the raw string "queued" verbatim, which
is none of processing, completed, failed; and a response with a MISSING
code field maps to failed, not to processing. -/
theorem parseVideoUrl_raw_status_passthrough :
    parseVideoUrl { code := some 0, data := some { status := some "queued" } }
      = { url := none, status := "queued" } ∧
    ("queued" : String) ≠ "processing" ∧ ("queued" : String) ≠ "completed" ∧
    ("queued" : String) ≠ "failed" ∧
    parseVideoUrl { code := none, data := some { status := some "whatever" } }
      = { url := none, status := "failed" } := by
  decide

/-- C2 amended: parseVideoUrl is total (never throws) and returns
processing, completed or failed in every case EXCEPT when the response
has code 0 and carries a truthy unrecognized status string, which is
passed through verbatim; in particular a missing or non-zero code maps
to failed rather than processing. -/
theorem parseVideoUrl_total_reduction (response : GrsaiPollResponse) :
    (parseVideoUrl response).status = "processing" ∨
    (parseVideoUrl response).status = "completed" ∨
    (parseVideoUrl response).status = "failed" ∨
    (response.code = some 0 ∧
      response.data.bind GrsaiTaskData.status = some (parseVideoUrl response).status) := by
  rcases response with ⟨code, data⟩
  by_cases h1 : code = some (-22)
  · simp [parseVideoUrl, h1]
  · by_cases h2 : code = some 0
    · rcases data with _ | ⟨st, u, rs⟩
      · simp [parseVideoUrl, h1, h2]
      · by_cases h3 : st = some "succeeded"
        · by_cases h4 : jsTruthyStr
            (if jsTruthyStr u then u else
              match rs with
              | some (first :: _) => first
              | _ => none) <;>
            simp [parseVideoUrl, h1, h2, h3, h4]
        · by_cases h5 : st = some "failed"
          · simp [parseVideoUrl, h1, h2, h3, h5]
          · rcases st with _ | s
            · simp [parseVideoUrl, h1, h2]
            · by_cases h6 : s = ""
              · simp [parseVideoUrl, h1, h2, h3, h5, h6]
              · simp [parseVideoUrl, h1, h2, h3, h5, h6]
    · simp [parseVideoUrl, h1, h2]

/-! ## GeekNow built-in plugin (src/services/GeeknowPlugin.ts), video path -/

/-- Outcome of one generate run: the returned url, or the message of the
error thrown out of generate (processJob catches it and fails the job
with exactly this message). -/
inductive GenResult
  | success (url : String)
  | failure (msg : String)
  deriving DecidableEq, Repr

/-- Decoded body of one GeekNow status poll. -/
structure GeeknowStatusData where
  status : Option String := none
  progress : Option Int := none
  video_url : Option String := none
  message : Option String := none
  deriving DecidableEq, Repr

/-- Outcome of executing one status request: the http call (or its
decoding) threw, or it delivered a body. -/
inductive GeeknowPollOutcome
  | httpError
  | ok (data : GeeknowStatusData)
  deriving DecidableEq, Repr

/-- Lowercasing of one ASCII character, as toLowerCase acts on the
ASCII status vocabulary of the provider. -/
def asciiCharToLower (c : Char) : Char :=
  if 'A' ≤ c ∧ c ≤ 'Z' then Char.ofNat (c.toNat + 32) else c

/-- status?.toLowerCase() of the source, on ASCII status strings. -/
def asciiToLower (s : String) : String :=
  String.mk (s.data.map asciiCharToLower)

/-- The GeekNow polling loop (while attempts < 180), one branch per
source line.  fuel is 180 - attempts, so fuel 0 is exactly the loop
guard failing, after which the source throws the trailing timeout
message.  Inside the loop every thrown error - the http error, the
missing-url error of a completed status, and the Cloud API Error thrown
for failed/error/cancelled - is caught by the catch of the same
iteration, which rethrows ONLY the 15-minute timeout message when
attempts >= 180 and otherwise continues polling.  The second component
counts the polls issued. -/
def geeknowPollLoop (poll : Nat → GeeknowPollOutcome) :
    Nat → Nat → Nat → GenResult × Nat
  | 0, _, polls =>
      (GenResult.failure "Video generation timed out after 15 minutes of polling", polls)
  | fuel + 1, attempts, polls =>
      match poll (attempts + 1) with
      | GeeknowPollOutcome.httpError =>
          if 180 ≤ attempts + 1 then
            (GenResult.failure "Video generation timed out after 15 minutes", polls + 1)
          else geeknowPollLoop poll fuel (attempts + 1) (polls + 1)
      | GeeknowPollOutcome.ok d =>
          if d.status.map asciiToLower = some "completed" ∨
             d.status.map asciiToLower = some "succeeded" ∨
             d.status.map asciiToLower = some "success" then
            if jsTruthyStr d.video_url then
              (GenResult.success (d.video_url.getD ""), polls + 1)
            else if 180 ≤ attempts + 1 then
              (GenResult.failure "Video generation timed out after 15 minutes", polls + 1)
            else geeknowPollLoop poll fuel (attempts + 1) (polls + 1)
          else if d.status.map asciiToLower = some "failed" ∨
                  d.status.map asciiToLower = some "error" ∨
                  d.status.map asciiToLower = some "cancelled" then
            if 180 ≤ attempts + 1 then
              (GenResult.failure "Video generation timed out after 15 minutes", polls + 1)
            else geeknowPollLoop poll fuel (attempts + 1) (polls + 1)
          else geeknowPollLoop poll fuel (attempts + 1) (polls + 1)

/-- Submit response of the GeekNow video endpoint: submitData.id. -/
structure GeeknowSubmitResponse where
  id : Option String := none
  deriving DecidableEq, Repr

/-- GeeknowPlugin.generate, video path, reduced to its decision
structure: const taskId = submitData.id; if (!taskId) throw the
missing-task-id error BEFORE any poll; otherwise run the polling loop
(MAX_ATTEMPTS 180). -/
def geeknowVideoGenerate (submit : GeeknowSubmitResponse)
    (poll : Nat → GeeknowPollOutcome) : GenResult × Nat :=
  if jsTruthyStr submit.id then geeknowPollLoop poll 180 0 0
  else (GenResult.failure "API did not return a valid Task ID", 0)

set_option maxRecDepth 8000 in
/-- C6: a poll sequence whose every round reports the explicit provider
status failed does NOT end the loop: the Cloud API Error thrown for it
is swallowed by the catch of its own iteration, so the driver consumes
all 180 attempts and terminates with the timeout message instead of the
provider failure. -/
theorem geeknow_explicit_failure_swallowed :
    geeknowVideoGenerate { id := some "task-1" }
      (fun _ => GeeknowPollOutcome.ok { status := some "failed", message := some "quota" })
      = (GenResult.failure "Video generation timed out after 15 minutes", 180) := by
  decide

/-! ## External-plugin session driver (aiPluginToApiPlugin), instantiated
with the grsai provider adapter of grsai-provider.js -/

/-- The polling loop of aiPluginToApiPlugin.generate: while the status
is neither completed nor success and attempts < maxRetries (60), issue
the status request, parse it with parseVideoUrl, return the url on
completed/success, throw the generic failure on failed/error, otherwise
loop.  fuel is 60 - attempts, so fuel 0 is exactly the loop guard
attempts < 60 failing; leaving the loop throws the timeout message when
the budget is spent, and the unreachable-end message when the loop was
skipped because the SUBMIT status was already completed/success.  The
second component counts the status polls issued. -/
def aiDriverLoop (poll : Nat → GrsaiPollResponse) :
    Nat → String → Nat → Nat → GenResult × Nat
  | 0, _, attempts, polls =>
      if 60 ≤ attempts then (GenResult.failure "Video generation timeout", polls)
      else (GenResult.failure "Unexpected polling end", polls)
  | fuel + 1, status, attempts, polls =>
      if status = "completed" ∨ status = "success" then
        if 60 ≤ attempts then (GenResult.failure "Video generation timeout", polls)
        else (GenResult.failure "Unexpected polling end", polls)
      else
        if (parseVideoUrl (poll (attempts + 1))).status = "completed" ∨
           (parseVideoUrl (poll (attempts + 1))).status = "success" then
          (GenResult.success ((parseVideoUrl (poll (attempts + 1))).url.getD ""), polls + 1)
        else if (parseVideoUrl (poll (attempts + 1))).status = "failed" ∨
                (parseVideoUrl (poll (attempts + 1))).status = "error" then
          (GenResult.failure "Video generation failed", polls + 1)
        else
          aiDriverLoop poll fuel (parseVideoUrl (poll (attempts + 1))).status
            (attempts + 1) (polls + 1)

/-- aiPluginToApiPlugin.generate for the grsai external provider: the
submit response goes through parseTaskResponse (whose thrown error
propagates out of generate) and the parsed status enters the loop
directly - the task id is NOT checked before polling. -/
def aiDriverGenerate (submit : GrsaiSubmitResponse)
    (poll : Nat → GrsaiPollResponse) : GenResult × Nat :=
  match parseTaskResponse submit with
  | Except.error msg => (GenResult.failure msg, 0)
  | Except.ok info => aiDriverLoop poll 60 info.status 0 0

/-- The polls-issued count of the loop never drops below its
accumulator. -/
theorem aiDriverLoop_polls_ge (poll : Nat → GrsaiPollResponse) (fuel : Nat) :
    ∀ (status : String) (attempts polls : Nat),
      polls ≤ (aiDriverLoop poll fuel status attempts polls).2 := by
  induction fuel with
  | zero =>
      intro status attempts polls
      unfold aiDriverLoop
      split <;> simp
  | succ k ih =>
      intro status attempts polls
      unfold aiDriverLoop
      split
      · split <;> simp
      · split
        · simp
        · split
          · simp
          · exact le_trans (Nat.le_succ polls) (ih _ _ _)

/-- A grsai submit response that carries code 0 but no task id. -/
def submitNoId : GrsaiSubmitResponse := { code := some 0, data := some {} }

/-- C3 counterexample: on a submit response with no extractable task id,
the external-plugin driver does not fail fast: parseTaskResponse yields
taskId null with status failed, the driver enters the polling loop
anyway, ISSUES one status poll (with a null task id), and terminates
with the generic message, which does not reference a missing task
identifier. -/
theorem driver_polls_after_missing_task_id :
    parseTaskResponse submitNoId = Except.ok { taskId := none, status := "failed" } ∧
    aiDriverGenerate submitNoId (fun _ => { code := some 1 })
      = (GenResult.failure "Video generation failed", 1) :=
  ⟨rfl, by decide⟩

/-- C3 amended: the built-in GeekNow plugin does transition directly to
failure with a message referencing the missing task id and zero polls
issued (submission is not retried); the external-plugin driver however
enters the polling loop on such a submit response and issues at least
one status poll. -/
theorem submit_without_task_id (submit : GeeknowSubmitResponse)
    (poll : Nat → GeeknowPollOutcome) (h : jsTruthyStr submit.id = false)
    (gsubmit : GrsaiSubmitResponse) (gpoll : Nat → GrsaiPollResponse)
    (hg : gsubmit.code = some 0)
    (hid : jsTruthyStr (gsubmit.data.bind GrsaiSubmitData.id) = false) :
    geeknowVideoGenerate submit poll
      = (GenResult.failure "API did not return a valid Task ID", 0) ∧
    1 ≤ (aiDriverGenerate gsubmit gpoll).2 := by
  constructor
  · unfold geeknowVideoGenerate
    rw [if_neg (by simp [h])]
  · unfold aiDriverGenerate parseTaskResponse
    rw [if_neg (by simp [hg])]
    rw [if_neg (by simp [hid])]
    show 1 ≤ (aiDriverLoop gpoll 60 "failed" 0 0).2
    unfold aiDriverLoop
    rw [if_neg (by simp)]
    split
    · simp
    · split
      · simp
      · exact le_trans (le_refl 1) (aiDriverLoop_polls_ge gpoll 59 _ 1 1)

/-- Witness: the GeekNow fail-fast and the driver poll at concrete
inputs. -/
theorem submit_without_task_id_witness :
    geeknowVideoGenerate { id := none } (fun _ => GeeknowPollOutcome.httpError)
      = (GenResult.failure "API did not return a valid Task ID", 0) ∧
    1 ≤ (aiDriverGenerate submitNoId (fun _ => { code := some 1 })).2 :=
  submit_without_task_id { id := none } (fun _ => GeeknowPollOutcome.httpError) (by decide)
    submitNoId (fun _ => { code := some 1 }) (by decide) (by decide)

/-! ## Plugin registry (src/services/pluginSystem.ts)

The registry is a plain object literal mapping provider id to adapter,
looked up as plugins[id] || UniversalMockPlugin.  In JavaScript,
property access on an object literal falls through to Object.prototype
when no own property matches, so an id naming an Object.prototype
member yields that inherited member - a function or object, hence
truthy - instead of undefined. -/

/-- Descriptor part of an ApiPlugin (id, name, description); the
behavioural methods are modelled separately where a claim needs them. -/
structure ApiPlugin where
  id : String
  name : String
  description : String
  deriving DecidableEq, Repr

/-- The built-in universal mock adapter. -/
def UniversalMockPlugin : ApiPlugin :=
  { id := "universal-mock", name := "Universal / Mock Adapter",
    description := "Generic adapter for development or standard OpenAI-compatible endpoints." }

/-- The built-in GeekNow adapter descriptor. -/
def GeeknowPluginDescriptor : ApiPlugin :=
  { id := "sora-veo-cloud", name := "GeekNow (Sora/Veo Cloud)",
    description := "基于 System Proxy (Rust) 的 Sora 和 Veo 视频生成中转服务" }

/-- The built-in Grsai adapter descriptor. -/
def GrsaiPluginDescriptor : ApiPlugin :=
  { id := "grsai-provider", name := "Grsai (Sora/Veo/Nano)",
    description := "支持 Sora-2, Veo3 和 Nano-Banana 模型的聚合接口" }

/-- The custom plugin template registered in the source. -/
def MyCustomPlugin : ApiPlugin :=
  { id := "my-custom-plugin", name := "我的自定义 API",
    description := "这是您自定义的中间件插件。" }

/-- Own properties of the plugins object literal, in insertion order. -/
def pluginsEntries : List (String × ApiPlugin) :=
  [(UniversalMockPlugin.id, UniversalMockPlugin),
   (GeeknowPluginDescriptor.id, GeeknowPluginDescriptor),
   (GrsaiPluginDescriptor.id, GrsaiPluginDescriptor),
   (MyCustomPlugin.id, MyCustomPlugin)]

/-- The property names every object literal inherits from
Object.prototype (standard ECMAScript members); each of them is a
function or object, hence truthy. -/
def objectPrototypeMemberNames : List String :=
  ["constructor", "hasOwnProperty", "isPrototypeOf", "propertyIsEnumerable",
   "toLocaleString", "toString", "valueOf", "__proto__",
   "__defineGetter__", "__defineSetter__", "__lookupGetter__", "__lookupSetter__"]

/-- What the expression plugins[id] || UniversalMockPlugin evaluates to:
an adapter, or a member inherited from Object.prototype (truthy, so the
fallback after || is skipped and the non-adapter value is returned). -/
inductive RegistryLookup
  | adapter (p : ApiPlugin)
  | inheritedMember
  deriving DecidableEq, Repr

/-- PluginRegistry.get of pluginSystem.ts under JS property-access
semantics: own properties first, then Object.prototype, and only a
genuinely undefined access falls back to the mock. -/
def pluginRegistryGet (id : String) : RegistryLookup :=
  match pluginsEntries.find? (fun e => e.1 = id) with
  | some e => RegistryLookup.adapter e.2
  | none =>
      if id ∈ objectPrototypeMemberNames then RegistryLookup.inheritedMember
      else RegistryLookup.adapter UniversalMockPlugin

/-- C7: the never-registered id "toString" does NOT resolve to the
universal mock adapter: the record inherits Object.prototype.toString,
which is truthy, so get returns that inherited function instead of a
usable adapter.  A registered id returns its adapter and an ordinary
unregistered id falls back to the mock. -/
theorem registry_get_inherited_member :
    pluginRegistryGet "toString" = RegistryLookup.inheritedMember ∧
    pluginsEntries.find? (fun e => e.1 = "toString") = none ∧
    pluginRegistryGet "sora-veo-cloud" = RegistryLookup.adapter GeeknowPluginDescriptor ∧
    pluginRegistryGet "no-such-provider" = RegistryLookup.adapter UniversalMockPlugin := by
  decide

/-! ## Registry variant with external plugins (the pluginSystem variant
kept in src/unnamed/part_017) -/

/-- The mock adapter of the variant module. -/
def UniversalMockPlugin17 : ApiPlugin :=
  { id := "universal-mock", name := "Universal Mock Provider",
    description := "Generic adapter for development or standard OpenAI-compatible endpoints." }

/-- The custom plugin template of the variant module. -/
def MyCustomPlugin17 : ApiPlugin :=
  { id := "my-custom-plugin", name := "Custom API Provider",
    description := "这是您自定义的中间件插件。" }

/-- Built-in plugins record of the variant (the API providers moved to
external plugins). -/
def pluginsEntries17 : List (String × ApiPlugin) :=
  [(UniversalMockPlugin17.id, UniversalMockPlugin17),
   (MyCustomPlugin17.id, MyCustomPlugin17)]

/-- PluginRegistry.get of the variant:
externalPlugins.find(p => p.id === id) || plugins[id] ||
UniversalMockPlugin. -/
def pluginRegistryGet17 (externalPlugins : List ApiPlugin) (id : String) : RegistryLookup :=
  match externalPlugins.find? (fun p => p.id = id) with
  | some p => RegistryLookup.adapter p
  | none =>
      match pluginsEntries17.find? (fun e => e.1 = id) with
      | some e => RegistryLookup.adapter e.2
      | none =>
          if id ∈ objectPrototypeMemberNames then RegistryLookup.inheritedMember
          else RegistryLookup.adapter UniversalMockPlugin17

/-- setExternalPlugins assigns the module-level external list; the
built-in record is untouched. -/
def setExternalPlugins (externalPlugins newPlugins : List ApiPlugin) : List ApiPlugin :=
  newPlugins

/-- clearAndReloadPlugins: set the external list to [] and then to the
reloaded plugins; the built-in record is untouched. -/
def clearAndReloadPlugins (externalPlugins reloaded : List ApiPlugin) : List ApiPlugin :=
  setExternalPlugins (setExternalPlugins externalPlugins []) reloaded

/-- C10: the variant registry searches the external list before the
built-in record, so an external plugin whose id is also a built-in key
shadows the built-in for every lookup; the built-in record is a module
constant never modified by (re)loading, so clearing the externals makes
get return the built-in adapter again. -/
theorem external_plugin_shadows_builtin (externalPlugins reloaded : List ApiPlugin)
    (id : String) (p : ApiPlugin) (entry : String × ApiPlugin)
    (hext : externalPlugins.find? (fun q => q.id = id) = some p)
    (hbuilt : pluginsEntries17.find? (fun e => e.1 = id) = some entry) :
    pluginRegistryGet17 externalPlugins id = RegistryLookup.adapter p ∧
    pluginRegistryGet17 (setExternalPlugins externalPlugins []) id
      = RegistryLookup.adapter entry.2 ∧
    clearAndReloadPlugins externalPlugins reloaded = reloaded := by
  refine ⟨?_, ?_, rfl⟩
  · unfold pluginRegistryGet17
    rw [hext]
  · show (match pluginsEntries17.find? (fun e => e.1 = id) with
      | some e => RegistryLookup.adapter e.2
      | none =>
          if id ∈ objectPrototypeMemberNames then RegistryLookup.inheritedMember
          else RegistryLookup.adapter UniversalMockPlugin17)
        = RegistryLookup.adapter entry.2
    rw [hbuilt]

/-- An external plugin whose manifest id collides with the built-in
mock. -/
def shadowMock : ApiPlugin :=
  { id := "universal-mock", name := "External shadow",
    description := "loaded from the plugins directory" }

/-- Witness: the external shadow wins the lookup; after clearing, the
built-in mock answers again. -/
theorem external_plugin_shadows_builtin_witness :
    pluginRegistryGet17 [shadowMock] "universal-mock" = RegistryLookup.adapter shadowMock ∧
    pluginRegistryGet17 (setExternalPlugins [shadowMock] []) "universal-mock"
      = RegistryLookup.adapter UniversalMockPlugin17 ∧
    clearAndReloadPlugins [shadowMock] [] = [] :=
  external_plugin_shadows_builtin [shadowMock] [] "universal-mock" shadowMock
    (UniversalMockPlugin17.id, UniversalMockPlugin17) (by decide) (by decide)

/-! ## External plugin loader (src/services/pluginLoader.ts) -/

/-- The structural checks of isValidAIPlugin on one evaluated plugin
object, one Bool per typeof/truthiness conjunct of the source.  The
concrete manifest and methods behind the checks play no role in the
loading decision, so the candidate is identified with its check
vector plus a tag distinguishing candidates of one discovery pass. -/
structure PluginCandidate where
  tag : Nat := 0
  truthyObject : Bool
  manifestTruthyObject : Bool
  idIsString : Bool
  nameIsString : Bool
  versionIsString : Bool
  descriptionIsString : Bool
  createRequestIsFunction : Bool
  parseTaskResponseIsFunction : Bool
  createStatusRequestIsFunction : Bool
  parseVideoUrlIsFunction : Bool
  deriving DecidableEq, Repr

/-- Evaluating one discovered plugin script with new Function: the
evaluation threw, or it produced a value. -/
inductive ScriptEval
  | throws
  | value (obj : PluginCandidate)
  deriving DecidableEq, Repr

/-- isValidAIPlugin of pluginLoader.ts: the conjunction of every
structural check. -/
def isValidAIPlugin (obj : PluginCandidate) : Bool :=
  obj.truthyObject && obj.manifestTruthyObject && obj.idIsString && obj.nameIsString &&
  obj.versionIsString && obj.descriptionIsString && obj.createRequestIsFunction &&
  obj.parseTaskResponseIsFunction && obj.createStatusRequestIsFunction &&
  obj.parseVideoUrlIsFunction

/-- loadExternalPlugins of pluginLoader.ts: the for-loop with its
per-script try/catch - a throwing script is skipped (its error logged),
an invalid object is skipped (a warning logged), a valid object is
pushed; the loop always continues to the next script. -/
def loadExternalPlugins (scripts : List ScriptEval) : List PluginCandidate :=
  match scripts with
  | [] => []
  | ScriptEval.throws :: rest => loadExternalPlugins rest
  | ScriptEval.value obj :: rest =>
      if isValidAIPlugin obj then obj :: loadExternalPlugins rest
      else loadExternalPlugins rest

/-- C8: the loaded set is exactly the valid scripts in discovery order;
a throwing or structurally invalid script is excluded, every valid
script of the same pass is loaded no matter which other scripts fail,
and everything loaded passed validation. -/
theorem loader_isolates_invalid_plugins (scripts : List ScriptEval) :
    loadExternalPlugins scripts
      = scripts.filterMap (fun s =>
          match s with
          | ScriptEval.throws => none
          | ScriptEval.value obj => if isValidAIPlugin obj then some obj else none) ∧
    (∀ obj, ScriptEval.value obj ∈ scripts → isValidAIPlugin obj = true →
      obj ∈ loadExternalPlugins scripts) ∧
    (∀ obj ∈ loadExternalPlugins scripts, isValidAIPlugin obj = true) := by
  refine ⟨?_, ?_, ?_⟩
  · induction scripts with
    | nil => rfl
    | cons s rest ih =>
        cases s with
        | throws => simpa [loadExternalPlugins, List.filterMap_cons] using ih
        | value obj =>
            by_cases hv : isValidAIPlugin obj <;>
              simp [loadExternalPlugins, List.filterMap_cons, hv, ih]
  · induction scripts with
    | nil => intro obj h; simp at h
    | cons s rest ih =>
        intro obj hmem hv
        cases s with
        | throws =>
            rcases List.mem_cons.mp hmem with h | h
            · exact absurd h (by simp)
            · simpa [loadExternalPlugins] using ih obj h hv
        | value obj2 =>
            rcases List.mem_cons.mp hmem with h | h
            · obtain rfl : obj2 = obj := by injection h.symm
              simp [loadExternalPlugins, hv]
            · by_cases hv2 : isValidAIPlugin obj2 <;>
                simp [loadExternalPlugins, hv2, ih obj h hv]
  · induction scripts with
    | nil => intro obj h; simp [loadExternalPlugins] at h
    | cons s rest ih =>
        intro obj hmem
        cases s with
        | throws => exact ih obj (by simpa [loadExternalPlugins] using hmem)
        | value obj2 =>
            by_cases hv2 : isValidAIPlugin obj2
            · rcases List.mem_cons.mp (by simpa [loadExternalPlugins, hv2] using hmem)
                with h | h
              · exact h ▸ hv2
              · exact ih obj h
            · exact ih obj (by simpa [loadExternalPlugins, hv2] using hmem)

/-- A candidate passing every check. -/
def validCandidate : PluginCandidate :=
  { tag := 1, truthyObject := true, manifestTruthyObject := true, idIsString := true,
    nameIsString := true, versionIsString := true, descriptionIsString := true,
    createRequestIsFunction := true, parseTaskResponseIsFunction := true,
    createStatusRequestIsFunction := true, parseVideoUrlIsFunction := true }

/-- A candidate whose export lacks the parseVideoUrl method. -/
def invalidCandidate : PluginCandidate :=
  { tag := 2, truthyObject := true, manifestTruthyObject := true, idIsString := true,
    nameIsString := true, versionIsString := true, descriptionIsString := true,
    createRequestIsFunction := true, parseTaskResponseIsFunction := true,
    createStatusRequestIsFunction := true, parseVideoUrlIsFunction := false }

/-- Witness: the valid script of a pass that also contains a throwing
script and an invalid export is still loaded. -/
theorem loader_isolates_invalid_plugins_witness :
    validCandidate ∈ loadExternalPlugins
      [ScriptEval.throws, ScriptEval.value invalidCandidate,
       ScriptEval.value validCandidate] :=
  (loader_isolates_invalid_plugins
      [ScriptEval.throws, ScriptEval.value invalidCandidate,
       ScriptEval.value validCandidate]).2.1
    validCandidate (by decide) (by decide)

/-! ## Actor registration pipeline (handleCreateRole of
Sora2RolePanel.tsx with FFmpegService.imageToVideo)

handleCreateRole validates item.imagePath, the api key and the storage
configuration, then starts processVideoConversionAndUpload immediately
(the source comments read 并发处理 - concurrent processing - at both
the call site and the finally block); imageToVideo awaits load() when
the ffmpeg core is not yet loaded.  The ONLY serialization in
FFmpegService is the loading flag of load(), which makes concurrent
loaders busy-wait until the one-time core load finishes; imageToVideo
itself checks no busy flag and takes no lock before driving the
encoder. -/

/-- The RoleCreationItem fields handleCreateRole inspects. -/
structure RoleCreationItem where
  imagePath : Option String
  audioPath : Option String := none
  roleName : Option String := none
  deriving DecidableEq, Repr

/-- Encoder-relevant state: the FFmpegService flags plus the number of
conversions currently inside imageToVideo. -/
structure ActorPipelineState where
  ffmpegLoaded : Bool
  ffmpegLoading : Bool
  waitingForLoad : Nat
  activeConversions : Nat
  deriving DecidableEq, Repr

/-- Events of the pipeline.  A createRole event carries the
handleCreateRole guards (truthy image path, truthy api key, storage
configured); with the core loaded the conversion starts at once,
REGARDLESS of how many conversions already run; with the core not
loaded the request waits on load(); loadFinish releases every waiter
into a conversion at once; conversionFinish ends one conversion. -/
inductive ActorStep : ActorPipelineState → ActorPipelineState → Prop
  | createRole (s : ActorPipelineState) (item : RoleCreationItem)
      (apiKey : String) (storageOk : Bool)
      (himg : jsTruthyStr item.imagePath = true)
      (hkey : apiKey ≠ "") (hstore : storageOk = true)
      (hl : s.ffmpegLoaded = true) :
      ActorStep s { s with activeConversions := s.activeConversions + 1 }
  | createRoleUnloaded (s : ActorPipelineState) (item : RoleCreationItem)
      (apiKey : String) (storageOk : Bool)
      (himg : jsTruthyStr item.imagePath = true)
      (hkey : apiKey ≠ "") (hstore : storageOk = true)
      (hl : s.ffmpegLoaded = false) :
      ActorStep s { s with ffmpegLoading := true, waitingForLoad := s.waitingForLoad + 1 }
  | loadFinish (s : ActorPipelineState) (h : s.ffmpegLoading = true) :
      ActorStep s { s with ffmpegLoaded := true, ffmpegLoading := false,
                           waitingForLoad := 0,
                           activeConversions := s.activeConversions + s.waitingForLoad }
  | conversionFinish (s : ActorPipelineState) (h : 1 ≤ s.activeConversions) :
      ActorStep s { s with activeConversions := s.activeConversions - 1 }

/-- Reflexive-transitive closure of pipeline events. -/
inductive ActorReachable : ActorPipelineState → ActorPipelineState → Prop
  | refl (s : ActorPipelineState) : ActorReachable s s
  | tail {a b d : ActorPipelineState} :
      ActorReachable a b → ActorStep b d → ActorReachable a d

/-- Idle pipeline with the ffmpeg core already loaded. -/
def actorInitState : ActorPipelineState :=
  { ffmpegLoaded := true, ffmpegLoading := false, waitingForLoad := 0,
    activeConversions := 0 }

/-- A role-creation request with an uploaded image. -/
def roleItemA : RoleCreationItem := { imagePath := some "C:/imgs/a.png" }

/-- Another role-creation request with an uploaded image. -/
def roleItemB : RoleCreationItem := { imagePath := some "C:/imgs/b.png" }

/-- C9 counterexample: two valid actor-creation requests, the second
arriving while the first conversion still runs, yield a reachable state
with TWO conversions in flight - the second request did not wait, so
the at-most-one-conversion bound of the claim fails. -/
theorem two_concurrent_conversions_reachable :
    ActorReachable actorInitState
      { ffmpegLoaded := true, ffmpegLoading := false, waitingForLoad := 0,
        activeConversions := 2 } ∧ ¬((2:Nat) ≤ 1) := by
  constructor
  · exact ActorReachable.tail
      (ActorReachable.tail (ActorReachable.refl actorInitState)
        (show ActorStep actorInitState
            { ffmpegLoaded := true, ffmpegLoading := false, waitingForLoad := 0,
              activeConversions := 1 } from
          ActorStep.createRole actorInitState roleItemA "key" true
            (by decide) (by decide) rfl rfl))
      (show ActorStep
          { ffmpegLoaded := true, ffmpegLoading := false, waitingForLoad := 0,
            activeConversions := 1 }
          { ffmpegLoaded := true, ffmpegLoading := false, waitingForLoad := 0,
            activeConversions := 2 } from
        ActorStep.createRole _ roleItemB "key" true (by decide) (by decide) rfl rfl)
  · decide

/-- C9 amended: conversions are started concurrently by design - a
valid request increments the number of in-flight conversions with no
gate on the conversions already running - so EVERY number of
simultaneous conversions is reachable; only the one-time core load is
serialized through the loading flag of load(). -/
theorem conversions_not_serialized (n : Nat) :
    ActorReachable actorInitState
      { ffmpegLoaded := true, ffmpegLoading := false, waitingForLoad := 0,
        activeConversions := n } := by
  induction n with
  | zero => exact ActorReachable.refl _
  | succ k ih =>
      exact ActorReachable.tail ih
        (ActorStep.createRole _ roleItemA "key" true (by decide) (by decide) rfl rfl)
